import Mathlib

/-!
# btctl: a shallow embedding of `cmd/main.go` and `bluetooth.go`

The development models the sequential, text-processing parts of the program:
the parsing of the `bluetoothctl devices` listing, the parsing of the menu
selection, the body of the live feed loop, the toggle/connect/status command
sequencing and the persisted last device.

External processes and the file system are an explicit environment: every
command the program runs is appended to a trace and answered by an oracle.
-/

namespace Btctl

/-! ## Go values -/

/-- A Go string is an immutable sequence of bytes; `len(s)` is `s.length`. -/
abbrev GoString := List UInt8

/-- The bytes of a string literal of the source (its UTF-8 encoding). -/
def str (s : String) : GoString := s.data.flatMap String.utf8EncodeChar

/-- The byte `' '`. -/
def space : UInt8 := 0x20

/-- The byte `'\n'`. -/
def newline : UInt8 := 0x0A

/-- The byte `'|'`. -/
def pipe : UInt8 := 0x7C

/-- A Go `error` value: one coming from the operating system or `os/exec`, one built by
`fmt.Errorf` (format and arguments kept apart), or one wrapped by `errors.WithMessage`. -/
inductive GoError where
  | os (msg : GoString)
  | errorf (format : String) (args : List GoString)
  | withMessage (cause : GoError) (msg : GoString)
  deriving DecidableEq, Repr

/-- What a call does besides looping: it returns a value or panics at run time
(index or slice bound out of range). -/
inductive Outcome (α : Type) where
  | returns (a : α)
  | panics
  deriving DecidableEq, Repr

/-! ## The `strings` package -/

/-- `strings.Split(s, sep)` for a separator `sep` of one byte: the pieces of `s` between the
occurrences of `sep`; a string without `sep` (the empty one too) gives exactly one piece. -/
def split : GoString → UInt8 → List GoString
  | [], _ => [[]]
  | c :: cs, sep =>
    if c = sep then [] :: split cs sep
    else
      match split cs sep with
      | [] => [[c]]
      | p :: ps => (c :: p) :: ps

/-- `strings.Join(elems, sep)`. -/
def join (elems : List GoString) (sep : GoString) : GoString :=
  sep.intercalate elems

/-- `strings.TrimRight(s, cutset)` for a cutset of one byte: `s` without its trailing run
of that byte. -/
def trimRight (s : GoString) (cut : UInt8) : GoString :=
  (s.reverse.dropWhile (fun c => c == cut)).reverse

/-- `strings.Contains(s, substr)`. -/
def contains : GoString → GoString → Bool
  | [], substr => substr.isEmpty
  | c :: cs, substr => substr.isPrefixOf (c :: cs) || contains cs substr

/-- The slice expression `xs[n:]`: out of range (a panic) when `n > len(xs)`. -/
def sliceFrom {α : Type} (xs : List α) (n : Nat) : Option (List α) :=
  if n ≤ xs.length then some (xs.drop n) else none

/-! ## Go maps from string to string -/

/-- A `map[string]string`, as the list of its entries; the keys of a map built with
`GoMap.set` from the empty map are pairwise distinct. -/
abbrev GoMap := List (GoString × GoString)

/-- The keys of a map. -/
def GoMap.keys (m : GoMap) : List GoString := m.map Prod.fst

/-- The lookup `v, ok := m[k]`. -/
def GoMap.get : GoMap → GoString → Option GoString
  | [], _ => none
  | (k', v') :: m, k => if k' = k then some v' else GoMap.get m k

/-- The assignment `m[k] = v`. -/
def GoMap.set : GoMap → GoString → GoString → GoMap
  | [], k, v => [(k, v)]
  | (k', v') :: m, k, v => if k' = k then (k, v) :: m else (k', v') :: GoMap.set m k v

/-- The builtin `len(m)`. -/
def GoMap.len (m : GoMap) : Nat := m.length

/-! ## Device directory: `getDeviceMap` (cmd/main.go) -/

/-- The loop `for _, line := range lines` shared verbatim by `getDeviceMap`
(cmd/main.go 203-211) and `BluetoothCtl.Devices` (bluetooth.go 85-93), run from the map
`devices` built so far; the result is the pair `(map, error)` the function returns, a
`none` map being Go's `nil`. -/
def parseDeviceLines : List GoString → GoMap → Outcome (Option GoMap × Option GoError)
  | [], devices => .returns (some devices, none)
  | line :: rest, devices =>
    let pieces := split line space
    if pieces.length = 1 then
      .returns (none, some (.errorf "line does not contain %q" [str " "]))
    else
      match sliceFrom pieces 2, pieces[1]? with
      | some tail, some device =>
        parseDeviceLines rest (GoMap.set devices (join tail (str " ")) device)
      | _, _ => .panics

/-- The line parsing of `getDeviceMap` (cmd/main.go 202-212), as a function of the lines
read from the standard output of `bluetoothctl devices`. -/
def getDeviceMap (lines : List GoString) : Outcome (Option GoMap × Option GoError) :=
  parseDeviceLines lines []

/-- The name a listing line contributes: its third to last fields joined by spaces. -/
def lineName (line : GoString) : GoString :=
  join ((split line space).drop 2) (str " ")

/-- The address a listing line contributes: its second field (empty when there is none). -/
def lineAddress (line : GoString) : GoString :=
  ((split line space)[1]?).getD []

/-- The map the listing loop builds when it rejects no line: one assignment
`devices[name] = device` per line, in order. -/
def assignLines (lines : List GoString) (devices : GoMap) : GoMap :=
  lines.foldl (fun m line => GoMap.set m (lineName line) (lineAddress line)) devices

/-! ## Selection parsing: `runDeviceSelectMenu` (cmd/main.go) -/

/-- The selection parsing of `runDeviceSelectMenu` (cmd/main.go 264-272), as a function of
`lines`, the lines read from the standard output of the menu process; the result is the
triple `(name, device, err)`. -/
def runDeviceSelectMenu (lines : List GoString) :
    Outcome (GoString × GoString × Option GoError) :=
  if lines.length = 0 then
    .returns ([], [], none)
  else
    match lines[0]? with
    | none => .panics
    | some line0 =>
      let pieces := split (trimRight line0 newline) pipe
      if pieces.length = 1 then
        .returns ([], [],
          some (.errorf "string %q doesnt contain delimiter %q" [line0, str "|"]))
      else
        match pieces[0]?, pieces[1]? with
        | some name, some device => .returns (name, device, none)
        | _, _ => .panics

/-! ## Live feed: `writeDevicesToStdin` (cmd/main.go) -/

/-- One call `io.WriteString(stdin, fmt.Sprintf("%v\n%v\n", name, device))`. -/
structure FeedWrite where
  name : GoString
  device : GoString
  deriving DecidableEq, Repr

/-- The bytes a feed write sends: the name, a newline, the address, a newline. -/
def FeedWrite.bytes (w : FeedWrite) : GoString :=
  w.name ++ [newline] ++ w.device ++ [newline]

/-- The state of the feed loop: the map `added` and the writes made to `stdin` so far
(the result of a write is ignored by the source). -/
structure Feed where
  added : GoMap
  stdin : List FeedWrite
  deriving DecidableEq, Repr

/-- The body of `for name, device := range deviceMap` (cmd/main.go 280-286) for one entry. -/
def writeDevicesToStdin.entry (st : Feed) (e : GoString × GoString) : Feed :=
  if (GoMap.get st.added e.1).isSome then st
  else
    { added := GoMap.set st.added e.1 e.2
      stdin := st.stdin ++ [{ name := e.1, device := e.2 }] }

/-- One turn of the loop of `writeDevicesToStdin` (cmd/main.go 279-286): `deviceMap` is what
`getDeviceMap` returned (its error is dropped, a `nil` map has nothing to range over); the
entries are listed in the order the `range` visits them. -/
def writeDevicesToStdin.body (st : Feed) (deviceMap : Option GoMap) : Feed :=
  match deviceMap with
  | none => st
  | some m => m.foldl writeDevicesToStdin.entry st

/-- The loop of `writeDevicesToStdin` run over a finite sequence of snapshots, from
`added := make(map[string]string)`. -/
def writeDevicesToStdin (snapshots : List (Option GoMap)) : Feed :=
  snapshots.foldl writeDevicesToStdin.body { added := [], stdin := [] }

/-- The invariant of the feed loop: the names written so far are pairwise distinct and each
of them is a key of `added`. -/
def FeedInv (st : Feed) : Prop :=
  (st.stdin.map FeedWrite.name).Nodup ∧
    ∀ n ∈ st.stdin.map FeedWrite.name, (GoMap.get st.added n).isSome = true

/-- Snapshot `b` holds every entry of snapshot `a`. -/
def Superset (a b : GoMap) : Prop := ∀ e ∈ a, e ∈ b

instance (a b : GoMap) : Decidable (Superset a b) :=
  inferInstanceAs (Decidable (∀ e ∈ a, e ∈ b))

/-- Whether each snapshot of a sequence is a superset of the one before it. -/
def growing : List GoMap → Bool
  | [] => true
  | [_] => true
  | a :: b :: rest => decide (Superset a b) && growing (b :: rest)

/-- The number of writes of the device name `name` among the writes `stdin`. -/
def writesOf (name : GoString) (stdin : List FeedWrite) : Nat :=
  (stdin.filter (fun w => decide (w.name = name))).length

/-! ## The environment: external commands and files -/

/-- An external command: the program name followed by its arguments. -/
abbrev Command := List GoString

/-- What running a command gives: its standard output (`Output`), its standard output and
error together (`CombinedOutput`), and the error of the run (`none` is `nil`). -/
structure CmdResult where
  stdout : GoString
  combined : GoString
  err : Option GoError
  deriving DecidableEq, Repr

/-- The environment of the program: `lookPath` is `exec.LookPath`; `exec` answers a command
given the commands run before it; `openErr`, `readErr` and `writeErr` say whether
`os.OpenFile`, `ioutil.ReadAll` and `WriteString` fail on a path. -/
structure Env where
  lookPath : GoString → Option GoError
  exec : List Command → Command → CmdResult
  openErr : GoString → Option GoError
  readErr : GoString → Option GoError
  writeErr : GoString → Option GoError

/-- The state the program acts on: the commands run so far, the bytes printed on its
standard output, and the content of each file (`none` when the file does not exist). -/
structure World where
  trace : List Command
  stdout : GoString
  files : GoString → Option GoString

/-- Runs one external command: the oracle answers, the command joins the trace. -/
def runCmd (env : Env) (w : World) (c : Command) : CmdResult × World :=
  (env.exec w.trace c, { w with trace := w.trace ++ [c] })

/-- The constant `isPoweredIndicator`. -/
def isPoweredIndicator : GoString := str "Powered: yes"

/-- The constant `isConnectedIndicator`. -/
def isConnectedIndicator : GoString := str "Connected: yes"

/-- The command `bluetoothctl power on`. -/
def powerOnCmd : Command := [str "bluetoothctl", str "power", str "on"]

/-- The command `bluetoothctl power off`. -/
def powerOffCmd : Command := [str "bluetoothctl", str "power", str "off"]

/-- The command `bluetoothctl disconnect`. -/
def disconnectCmd : Command := [str "bluetoothctl", str "disconnect"]

/-- The command `bluetoothctl connect <device>`. -/
def connectCmd (device : GoString) : Command := [str "bluetoothctl", str "connect", device]

/-- The command `bluetoothctl show`. -/
def showCmd : Command := [str "bluetoothctl", str "show"]

/-- The command `bluetoothctl info`. -/
def infoCmd : Command := [str "bluetoothctl", str "info"]

/-- The command `bluetoothctl devices`. -/
def devicesCmd : Command := [str "bluetoothctl", str "devices"]

/-! ## Connection control: `connect`, `toggle`, status (cmd/main.go) -/

/-- The function `connect` (cmd/main.go 141-155): power on, then disconnect when
`isConnected`, then connect to `device`; each failing command ends the call with its error
wrapped together with its standard output. -/
def connect (env : Env) (w : World) (device : GoString) (isConnected : Bool) :
    Option GoError × World :=
  let (pow, w1) := runCmd env w powerOnCmd
  match pow.err with
  | some err => (some (.withMessage err pow.stdout), w1)
  | none =>
    let (disconnected, w2) :=
      if isConnected then
        let (dis, w2) := runCmd env w1 disconnectCmd
        match dis.err with
        | some err => (some (GoError.withMessage err dis.stdout), w2)
        | none => (none, w2)
      else (none, w1)
    match disconnected with
    | some err => (some err, w2)
    | none =>
      let (con, w3) := runCmd env w2 (connectCmd device)
      match con.err with
      | some err => (some (.withMessage err con.stdout), w3)
      | none => (none, w3)

/-- The function `toggle` (cmd/main.go 103-115). -/
def toggle (env : Env) (w : World) (isConnected isPowered : Bool) (device : GoString) :
    Option GoError × World :=
  if !isConnected || !isPowered then
    match connect env w device isConnected with
    | (some err, w1) => (some err, w1)
    | (none, w1) => (none, w1)
  else
    let (pow, w1) := runCmd env w powerOffCmd
    match pow.err with
    | some err => (some err, w1)
    | none => (none, w1)

/-- The call `fmt.Println(s)`. -/
def println (w : World) (s : GoString) : World :=
  { w with stdout := w.stdout ++ s ++ [newline] }

/-- The function `printStatus` (cmd/main.go 157-165). -/
def printStatus (w : World) (isPowered isConnected : Bool)
    (connected disconnected off : GoString) : World :=
  if !isPowered then println w off
  else if !isConnected then println w disconnected
  else println w connected

/-- The function `isPowered` (cmd/main.go 167-176). -/
def isPowered (env : Env) (w : World) : (Bool × Option GoError) × World :=
  let (r, w1) := runCmd env w showCmd
  match r.err with
  | some err => ((false, some err), w1)
  | none =>
    if contains r.combined isPoweredIndicator then ((true, none), w1)
    else ((false, none), w1)

/-- The function `isConnected` (cmd/main.go 178-184): the error of the command is dropped. -/
def isConnected (env : Env) (w : World) : (Bool × Option GoError) × World :=
  let (r, w1) := runCmd env w infoCmd
  if contains r.combined isConnectedIndicator then ((true, none), w1)
  else ((false, none), w1)

/-! ## The persisted last device (cmd/main.go) -/

/-- The function `getLastDevice` (cmd/main.go 215-225): `O_CREATE` makes an absent file an
empty one; the whole content is read and its trailing newlines are trimmed. -/
def getLastDevice (env : Env) (w : World) (filepath : GoString) :
    (GoString × Option GoError) × World :=
  match env.openErr filepath with
  | some err => (([], some err), w)
  | none =>
    let content := (w.files filepath).getD []
    let w1 := { w with files := Function.update w.files filepath (some content) }
    match env.readErr filepath with
    | some err => (([], some err), w1)
    | none => ((trimRight content newline, none), w1)

/-- The function `setLastDevice` (cmd/main.go 227-240): the file is opened with
`O_CREATE|O_WRONLY`, without `O_TRUNC` and without `O_APPEND`, so the bytes of `device`
replace the first `len(device)` bytes of the content and what lies beyond them stays. -/
def setLastDevice (env : Env) (w : World) (filepath device : GoString) :
    Option GoError × World :=
  if device.length ≠ 17 then
    (some (.errorf "wrong device format %q" [device]), w)
  else
    match env.openErr filepath with
    | some err => (some err, w)
    | none =>
      let content := (w.files filepath).getD []
      match env.writeErr filepath with
      | some err =>
        (some err, { w with files := Function.update w.files filepath (some content) })
      | none =>
        (none, { w with files :=
          Function.update w.files filepath (some (device ++ content.drop device.length)) })

/-! ## The command dispatch: `run` (cmd/main.go) -/

/-- The function `run` (cmd/main.go 49-94). The function `pick` starts the menu process and
two background tasks; it is the parameter `pick`, called with the store path and
`isConnected`. -/
def run (env : Env) (pick : World → GoString → Bool → Option GoError × World) (w : World)
    (connected disconnected off device storePath command : GoString) :
    Option GoError × World :=
  match env.lookPath (str "bluetoothctl") with
  | some err => (some err, w)
  | none =>
  match env.lookPath (str "yad") with
  | some err => (some err, w)
  | none =>
  match isPowered env w with
  | ((_, some err), w1) => (some err, w1)
  | ((powered, none), w1) =>
  match isConnected env w1 with
  | ((_, some err), w2) => (some err, w2)
  | ((isCon, none), w2) =>
    if command = str "toggle" then
      if device = [] then
        match getLastDevice env w2 storePath with
        | ((_, some err), w3) => (some err, w3)
        | ((last, none), w3) =>
          if last = [] then (some (.errorf "no device set in %q" [storePath]), w3)
          else toggle env w3 isCon powered last
      else toggle env w2 isCon powered device
    else if command = str "pick" then
      pick w2 storePath isCon
    else if command = str "status" then
      (none, printStatus w2 powered isCon connected disconnected off)
    else
      (some (.errorf "invalid command %q provided" [command]), w2)

/-! ## `BluetoothCtl.Devices` (bluetooth.go) -/

/-- The method `BluetoothCtl.Devices` (bluetooth.go 78-95). -/
def BluetoothCtl.Devices (env : Env) (w : World) :
    Outcome (Option GoMap × Option GoError) × World :=
  let (r, w1) := runCmd env w devicesCmd
  match r.err with
  | some err => (.returns (none, some (.withMessage err r.combined)), w1)
  | none => (parseDeviceLines (split r.combined newline) [], w1)


/-! ## Concrete environments -/

/-- The result of a command that succeeds and prints `out`. -/
def okResult (out : GoString) : CmdResult :=
  { stdout := out, combined := out, err := none }

/-- The result of a command that prints nothing and exits with status 1. -/
def failResult : CmdResult :=
  { stdout := [], combined := [], err := some (.os (str "exit status 1")) }

/-- The state before the program has done anything, with no file. -/
def emptyWorld : World :=
  { trace := [], stdout := [], files := fun _ => none }

/-- The state before the program has done anything, with one file. -/
def worldWithFile (filepath content : GoString) : World :=
  { trace := [], stdout := [], files := fun p => if p = filepath then some content else none }

/-- An environment where both tools are installed, every file operation succeeds and every
command succeeds: `show` reports a powered adapter, `info` a connected device, and
`devices` lists two devices, each line ending in a newline. -/
def envOk : Env :=
  { lookPath := fun _ => none
    exec := fun _ c =>
      if c = showCmd then okResult (str "Controller 00:1A:7D:DA:71:13\n\tPowered: yes\n")
      else if c = infoCmd then okResult (str "Device AA:BB:CC:DD:EE:FF\n\tConnected: yes\n")
      else if c = devicesCmd then
        okResult (str "Device AA:BB:CC:DD:EE:FF Pixel Buds\nDevice 11:22:33:44:55:66 Speaker\n")
      else okResult []
    openErr := fun _ => none
    readErr := fun _ => none
    writeErr := fun _ => none }

/-- The environment `envOk`, except that `bluetoothctl disconnect` fails. -/
def envDisconnectFails : Env :=
  { envOk with exec := fun tr c => if c = disconnectCmd then failResult else envOk.exec tr c }

/-- The environment `envOk`, except that `bluetoothctl show` prints its report and then
fails, as when it is killed at the deadline of the context. -/
def envShowFails : Env :=
  { envOk with exec := fun tr c =>
      if c = showCmd then
        { stdout := str "Controller 00:1A:7D:DA:71:13\n\tPowered: yes\n"
          combined := str "Controller 00:1A:7D:DA:71:13\n\tPowered: yes\n"
          err := some (.os (str "signal: killed")) }
      else envOk.exec tr c }

/-- The environment `envOk`, except that `yad` is not installed. -/
def envNoYad : Env :=
  { envOk with lookPath := fun file =>
      if file = str "yad" then some (.os (str "executable file not found in $PATH"))
      else none }
/-! ## Lemmas on the `strings` functions -/

theorem split_ne_nil (s : GoString) (sep : UInt8) : split s sep ≠ [] := by
  induction s with
  | nil => simp [split]
  | cons c cs ih =>
    unfold split
    split_ifs
    · simp
    · split <;> simp

theorem split_length_pos (s : GoString) (sep : UInt8) : 1 ≤ (split s sep).length := by
  have h := split_ne_nil s sep
  cases hs : split s sep with
  | nil => exact absurd hs h
  | cons p ps => simp

/-! ## Lemmas on maps -/

theorem GoMap.keys_set (m : GoMap) (k v : GoString) :
    (GoMap.set m k v).keys = if k ∈ m.keys then m.keys else m.keys ++ [k] := by
  induction m with
  | nil => simp [GoMap.set, GoMap.keys]
  | cons p m ih =>
    obtain ⟨k', v'⟩ := p
    unfold GoMap.set
    by_cases hk : k' = k
    · subst hk
      simp [GoMap.keys]
    · have ih' : List.map Prod.fst (GoMap.set m k v) =
          if k ∈ List.map Prod.fst m then List.map Prod.fst m else List.map Prod.fst m ++ [k] := ih
      have hk' : ¬ k = k' := fun h => hk h.symm
      simp only [hk, if_false, GoMap.keys, List.map_cons, List.mem_cons, hk', false_or, ih']
      split_ifs <;> simp

theorem GoMap.mem_keys_set (m : GoMap) (k v n : GoString) :
    n ∈ (GoMap.set m k v).keys ↔ n = k ∨ n ∈ m.keys := by
  rw [GoMap.keys_set]
  split_ifs with h
  · constructor
    · intro hn; exact Or.inr hn
    · rintro (rfl | hn)
      · exact h
      · exact hn
  · simp [or_comm]

theorem GoMap.nodup_keys_set (m : GoMap) (k v : GoString) (h : m.keys.Nodup) :
    (GoMap.set m k v).keys.Nodup := by
  rw [GoMap.keys_set]
  split_ifs with hk
  · exact h
  · rw [List.nodup_append]
    refine ⟨h, by simp, ?_⟩
    intro a ha hb
    simp at hb
    subst hb
    exact hk ha

theorem GoMap.get_set (m : GoMap) (k v n : GoString) :
    GoMap.get (GoMap.set m k v) n = if k = n then some v else GoMap.get m n := by
  induction m with
  | nil => simp [GoMap.set, GoMap.get]
  | cons p m ih =>
    obtain ⟨k', v'⟩ := p
    unfold GoMap.set
    by_cases hk : k' = k
    · subst hk
      by_cases hn : k' = n <;> simp [GoMap.get, hn]
    · simp only [hk, if_false, GoMap.get, ih]
      by_cases hn : k' = n
      · subst hn
        have : ¬ k = k' := fun h => hk h.symm
        simp [this]
      · simp [hn]

theorem GoMap.len_eq_keys_length (m : GoMap) : m.len = m.keys.length := by
  simp [GoMap.len, GoMap.keys]


/-! ## Lemmas on the listing loop -/

theorem parseDeviceLines_cons_error (line : GoString) (rest : List GoString) (devices : GoMap)
    (h : (split line space).length = 1) :
    parseDeviceLines (line :: rest) devices =
      .returns (none, some (.errorf "line does not contain %q" [str " "])) := by
  simp [parseDeviceLines, h]

theorem parseDeviceLines_cons_step (line : GoString) (rest : List GoString) (devices : GoMap)
    (h : (split line space).length ≠ 1) :
    parseDeviceLines (line :: rest) devices =
      parseDeviceLines rest (GoMap.set devices (lineName line) (lineAddress line)) := by
  have hpos := split_length_pos line space
  have h2 : 2 ≤ (split line space).length := by omega
  have hlt : 1 < (split line space).length := by omega
  have hidx : (split line space)[1]? = some ((split line space)[1]) :=
    List.getElem?_eq_getElem hlt
  simp [parseDeviceLines, h, sliceFrom, h2, lineName, lineAddress, hidx]

theorem parseDeviceLines_ok (lines : List GoString) (devices : GoMap)
    (h : ∀ line ∈ lines, (split line space).length ≠ 1) :
    parseDeviceLines lines devices = .returns (some (assignLines lines devices), none) := by
  induction lines generalizing devices with
  | nil => simp [parseDeviceLines, assignLines]
  | cons line rest ih =>
    rw [parseDeviceLines_cons_step line rest devices (h line (by simp))]
    rw [ih _ (fun l hl => h l (by simp [hl]))]
    simp [assignLines]

theorem parseDeviceLines_error (lines : List GoString) (devices : GoMap)
    (h : ∃ line ∈ lines, (split line space).length = 1) :
    parseDeviceLines lines devices =
      .returns (none, some (.errorf "line does not contain %q" [str " "])) := by
  induction lines generalizing devices with
  | nil => simp at h
  | cons line rest ih =>
    by_cases h1 : (split line space).length = 1
    · exact parseDeviceLines_cons_error line rest devices h1
    · rw [parseDeviceLines_cons_step line rest devices h1]
      apply ih
      obtain ⟨l, hl, hl1⟩ := h
      simp only [List.mem_cons] at hl
      rcases hl with rfl | hl
      · exact absurd hl1 h1
      · exact ⟨l, hl, hl1⟩

theorem assignLines_append (xs ys : List GoString) (devices : GoMap) :
    assignLines (xs ++ ys) devices = assignLines ys (assignLines xs devices) := by
  simp [assignLines, List.foldl_append]

theorem mem_keys_assignLines (lines : List GoString) (devices : GoMap) (n : GoString) :
    n ∈ (assignLines lines devices).keys ↔ n ∈ devices.keys ∨ n ∈ lines.map lineName := by
  induction lines generalizing devices with
  | nil => simp [assignLines]
  | cons line rest ih =>
    have : assignLines (line :: rest) devices =
        assignLines rest (GoMap.set devices (lineName line) (lineAddress line)) := rfl
    rw [this, ih, GoMap.mem_keys_set]
    simp only [List.map_cons, List.mem_cons]
    tauto

theorem nodup_keys_assignLines (lines : List GoString) (devices : GoMap)
    (h : devices.keys.Nodup) : (assignLines lines devices).keys.Nodup := by
  induction lines generalizing devices with
  | nil => simpa [assignLines] using h
  | cons line rest ih =>
    exact ih _ (GoMap.nodup_keys_set devices _ _ h)

theorem get_assignLines_of_not_mem (lines : List GoString) (devices : GoMap) (n : GoString)
    (h : ∀ l ∈ lines, lineName l ≠ n) :
    GoMap.get (assignLines lines devices) n = GoMap.get devices n := by
  induction lines generalizing devices with
  | nil => simp [assignLines]
  | cons line rest ih =>
    have : assignLines (line :: rest) devices =
        assignLines rest (GoMap.set devices (lineName line) (lineAddress line)) := rfl
    rw [this, ih _ (fun l hl => h l (by simp [hl])), GoMap.get_set]
    simp [h line (by simp)]

theorem len_assignLines (lines : List GoString) :
    (assignLines lines []).len = (lines.map lineName).dedup.length := by
  rw [GoMap.len_eq_keys_length]
  apply List.Perm.length_eq
  rw [List.perm_ext_iff_of_nodup (nodup_keys_assignLines lines [] (by simp [GoMap.keys]))
    (List.nodup_dedup _)]
  intro n
  rw [mem_keys_assignLines, List.mem_dedup]
  simp [GoMap.keys]

theorem split_cons (c : UInt8) (cs : GoString) (sep : UInt8) :
    split (c :: cs) sep =
      if c = sep then [] :: split cs sep
      else
        match split cs sep with
        | [] => [[c]]
        | p :: ps => (c :: p) :: ps := by
  rw [split]

theorem split_of_not_mem (s : GoString) (sep : UInt8) (h : sep ∉ s) : split s sep = [s] := by
  induction s with
  | nil => simp [split]
  | cons c cs ih =>
    simp only [List.mem_cons, not_or] at h
    have hc : ¬ c = sep := fun e => h.1 e.symm
    rw [split_cons, if_neg hc, ih h.2]

theorem split_append_sep (a b : GoString) (sep : UInt8) (h : sep ∉ a) :
    split (a ++ sep :: b) sep = a :: split b sep := by
  induction a with
  | nil =>
    show split (sep :: b) sep = [] :: split b sep
    rw [split_cons, if_pos rfl]
  | cons c cs ih =>
    simp only [List.mem_cons, not_or] at h
    have hc : ¬ c = sep := fun e => h.1 e.symm
    show split (c :: (cs ++ sep :: b)) sep = (c :: cs) :: split b sep
    rw [split_cons, if_neg hc, ih h.2]

theorem mem_of_mem_trimRight (s : GoString) (cut x : UInt8) (h : x ∈ trimRight s cut) :
    x ∈ s := by
  unfold trimRight at h
  rw [List.mem_reverse] at h
  have := (List.dropWhile_sublist (fun c => c == cut) (l := s.reverse)).subset h
  simpa using this

theorem trimRight_concat (s : GoString) (c cut : UInt8) (h : c ≠ cut) :
    trimRight (s ++ [c]) cut = s ++ [c] := by
  unfold trimRight
  have hc : ¬ ((fun x => x == cut) c = true) := by simpa using h
  have hd : List.dropWhile (fun x => x == cut) (c :: s.reverse) = c :: s.reverse :=
    List.dropWhile_cons_of_neg hc
  rw [List.reverse_append, List.reverse_singleton, List.singleton_append, hd]
  simp

theorem trimRight_nil (cut : UInt8) : trimRight [] cut = [] := by
  simp [trimRight]


/-! ## Lemmas on the feed loop -/

theorem feedInv_entry (st : Feed) (e : GoString × GoString) (h : FeedInv st) :
    FeedInv (writeDevicesToStdin.entry st e) := by
  unfold writeDevicesToStdin.entry
  by_cases hk : (GoMap.get st.added e.1).isSome = true
  · rw [if_pos hk]
    exact h
  · rw [if_neg hk]
    obtain ⟨hnodup, hkeys⟩ := h
    have hfresh : e.1 ∉ st.stdin.map FeedWrite.name := fun hin => hk (hkeys _ hin)
    constructor
    · simp only [List.map_append, List.map_cons, List.map_nil]
      rw [List.nodup_append]
      refine ⟨hnodup, by simp, ?_⟩
      intro a ha hb
      simp only [List.mem_singleton] at hb
      subst hb
      exact hfresh ha
    · intro n hn
      simp only [List.map_append, List.map_cons, List.map_nil, List.mem_append,
        List.mem_singleton] at hn
      show (GoMap.get (GoMap.set st.added e.1 e.2) n).isSome = true
      rw [GoMap.get_set]
      by_cases hen : e.1 = n
      · simp [hen]
      · rw [if_neg hen]
        rcases hn with hn | hn
        · exact hkeys n hn
        · exact absurd hn.symm hen

theorem feedInv_body (st : Feed) (deviceMap : Option GoMap) (h : FeedInv st) :
    FeedInv (writeDevicesToStdin.body st deviceMap) := by
  cases deviceMap with
  | none => exact h
  | some m =>
    show FeedInv (m.foldl writeDevicesToStdin.entry st)
    induction m generalizing st with
    | nil => exact h
    | cons e m ih => exact ih _ (feedInv_entry st e h)

theorem feedInv_loop (snapshots : List (Option GoMap)) (st : Feed) (h : FeedInv st) :
    FeedInv (snapshots.foldl writeDevicesToStdin.body st) := by
  induction snapshots generalizing st with
  | nil => exact h
  | cons m rest ih => exact ih _ (feedInv_body st m h)

theorem feedInv_writeDevicesToStdin (snapshots : List (Option GoMap)) :
    FeedInv (writeDevicesToStdin snapshots) := by
  apply feedInv_loop
  constructor
  · simp
  · intro n hn
    simp at hn

theorem writesOf_le_one (name : GoString) (stdin : List FeedWrite)
    (h : (stdin.map FeedWrite.name).Nodup) : writesOf name stdin ≤ 1 := by
  induction stdin with
  | nil => simp [writesOf]
  | cons w ws ih =>
    simp only [List.map_cons, List.nodup_cons] at h
    have ih' : (ws.filter (fun w => decide (w.name = name))).length ≤ 1 := ih h.2
    by_cases hw : w.name = name
    · have hnone : ws.filter (fun w => decide (w.name = name)) = [] := by
        rw [List.filter_eq_nil_iff]
        intro x hx hxn
        apply h.1
        rw [hw]
        exact List.mem_map.mpr ⟨x, hx, by simpa using hxn⟩
      simp [writesOf, List.filter_cons, hw, hnone]
    · simpa [writesOf, List.filter_cons, hw] using ih'

/-! ## Lemmas on a trailing separator -/

theorem split_concat_sep (s : GoString) (sep : UInt8) :
    split (s ++ [sep]) sep = split s sep ++ [[]] := by
  induction s with
  | nil =>
    show split [sep] sep = split [] sep ++ [[]]
    rw [split_cons, if_pos rfl]
    simp [split]
  | cons c cs ih =>
    show split (c :: (cs ++ [sep])) sep = split (c :: cs) sep ++ [[]]
    rw [split_cons, split_cons, ih]
    by_cases hc : c = sep
    · simp [hc]
    · rw [if_neg hc, if_neg hc]
      cases hs : split cs sep with
      | nil => exact absurd hs (split_ne_nil cs sep)
      | cons p ps => simp

theorem nil_mem_split (s : GoString) (sep : UInt8)
    (h : s = [] ∨ ∃ t, s = t ++ [sep]) : [] ∈ split s sep := by
  rcases h with rfl | ⟨t, rfl⟩
  · simp [split]
  · rw [split_concat_sep]
    simp

theorem trimRight_of_getLast (s : GoString) (cut : UInt8) (h : s.getLast? ≠ some cut) :
    trimRight s cut = s := by
  rcases List.eq_nil_or_concat s with rfl | ⟨a, c, rfl⟩
  · exact trimRight_nil cut
  · rw [List.concat_eq_append] at h ⊢
    apply trimRight_concat
    intro e
    apply h
    simp [e]
/-! ## Device directory: the listing of `getDeviceMap` -/

/-- C1, counterexample: two well-formed lines (three fields each) that carry the same name
give a map of one entry, not two; the name keeps the address of the later line. -/
theorem getDeviceMap_entries_counterexample :
    (∀ line ∈ [str "Device AA:BB:CC:DD:EE:01 Speaker", str "Device AA:BB:CC:DD:EE:02 Speaker"],
      3 ≤ (split line space).length) ∧
    getDeviceMap [str "Device AA:BB:CC:DD:EE:01 Speaker", str "Device AA:BB:CC:DD:EE:02 Speaker"]
      = .returns (some [(str "Speaker", str "AA:BB:CC:DD:EE:02")], none) ∧
    GoMap.len [(str "Speaker", str "AA:BB:CC:DD:EE:02")] ≠
      [str "Device AA:BB:CC:DD:EE:01 Speaker", str "Device AA:BB:CC:DD:EE:02 Speaker"].length := by
  decide

/-- C1, amended: when every line has at least 3 fields, the line parsing of `getDeviceMap`
returns without a panic, with no error and a map `m` whose keys are exactly the names of
the lines (third to last fields joined by single spaces), so that `len(m)` is the number of
distinct names; a name maps to the address (second field) of the last line that carries it;
and when the names are pairwise distinct `len(m)` is the number of lines. -/
theorem getDeviceMap_wellFormed (lines : List GoString)
    (h : ∀ line ∈ lines, 3 ≤ (split line space).length) :
    ∃ m : GoMap, getDeviceMap lines = .returns (some m, none) ∧
      m.keys.Nodup ∧
      (∀ n, n ∈ m.keys ↔ n ∈ lines.map lineName) ∧
      m.len = (lines.map lineName).dedup.length ∧
      (∀ pre line post, lines = pre ++ line :: post →
        (∀ l ∈ post, lineName l ≠ lineName line) →
        GoMap.get m (lineName line) = some (lineAddress line)) ∧
      ((lines.map lineName).Nodup → m.len = lines.length) := by
  refine ⟨assignLines lines [], ?_, ?_, ?_, ?_, ?_, ?_⟩
  · exact parseDeviceLines_ok lines [] (fun l hl => by have := h l hl; omega)
  · exact nodup_keys_assignLines lines [] (by simp [GoMap.keys])
  · intro n
    rw [mem_keys_assignLines]
    simp [GoMap.keys]
  · exact len_assignLines lines
  · intro pre line post hlines hpost
    subst hlines
    rw [assignLines_append]
    have hstep : assignLines (line :: post) (assignLines pre []) =
        assignLines post
          (GoMap.set (assignLines pre []) (lineName line) (lineAddress line)) := rfl
    rw [hstep, get_assignLines_of_not_mem post _ _ hpost, GoMap.get_set]
    simp
  · intro hnodup
    rw [len_assignLines, List.Nodup.dedup hnodup, List.length_map]

/-- C1, witness: two well-formed lines, one with a name of two words. -/
theorem getDeviceMap_wellFormed_witness :
    (∀ line ∈ [str "Device AA:BB:CC:DD:EE:FF Pixel Buds", str "Device 11:22:33:44:55:66 Speaker"],
      3 ≤ (split line space).length) ∧
    ∃ m : GoMap,
      getDeviceMap
        [str "Device AA:BB:CC:DD:EE:FF Pixel Buds", str "Device 11:22:33:44:55:66 Speaker"]
        = .returns (some m, none) ∧
      m.keys.Nodup ∧
      (∀ n, n ∈ m.keys ↔ n ∈
        [str "Device AA:BB:CC:DD:EE:FF Pixel Buds", str "Device 11:22:33:44:55:66 Speaker"].map
          lineName) ∧
      m.len =
        ([str "Device AA:BB:CC:DD:EE:FF Pixel Buds", str "Device 11:22:33:44:55:66 Speaker"].map
          lineName).dedup.length ∧
      (∀ pre line post,
        [str "Device AA:BB:CC:DD:EE:FF Pixel Buds", str "Device 11:22:33:44:55:66 Speaker"]
          = pre ++ line :: post →
        (∀ l ∈ post, lineName l ≠ lineName line) →
        GoMap.get m (lineName line) = some (lineAddress line)) ∧
      (([str "Device AA:BB:CC:DD:EE:FF Pixel Buds", str "Device 11:22:33:44:55:66 Speaker"].map
          lineName).Nodup →
        m.len =
          [str "Device AA:BB:CC:DD:EE:FF Pixel Buds", str "Device 11:22:33:44:55:66 Speaker"].length) :=
  ⟨by decide, getDeviceMap_wellFormed _ (by decide)⟩

/-- C2, counterexample: a line of two fields (fewer than 3) is not rejected; the parsing
returns no error and a map holding the empty name. -/
theorem getDeviceMap_twoFields_counterexample :
    (∃ line ∈ [str "Device AA:BB:CC:DD:EE:FF"], (split line space).length < 3) ∧
    getDeviceMap [str "Device AA:BB:CC:DD:EE:FF"]
      = .returns (some [([], str "AA:BB:CC:DD:EE:FF")], none) := by
  decide

/-- C2, amended: when some line has fewer than 2 fields, that is no space at all (a split
never gives 0 fields), the line parsing of `getDeviceMap` returns an error and a nil map,
not a partial one. -/
theorem getDeviceMap_malformed (lines : List GoString)
    (h : ∃ line ∈ lines, (split line space).length < 2) :
    getDeviceMap lines =
      .returns (none, some (.errorf "line does not contain %q" [str " "])) := by
  apply parseDeviceLines_error
  obtain ⟨line, hline, hlt⟩ := h
  have hpos := split_length_pos line space
  exact ⟨line, hline, by omega⟩

/-- C2, witness: a well-formed line followed by a line without a space. -/
theorem getDeviceMap_malformed_witness :
    (∃ line ∈ [str "Device AA:BB:CC:DD:EE:FF Pixel Buds", str "garbage"],
      (split line space).length < 2) ∧
    getDeviceMap [str "Device AA:BB:CC:DD:EE:FF Pixel Buds", str "garbage"] =
      .returns (none, some (.errorf "line does not contain %q" [str " "])) :=
  ⟨by decide, getDeviceMap_malformed _ (by decide)⟩

/-! ## Selection parsing -/

/-- C3: the selection parsing of `runDeviceSelectMenu`: with no output line it returns the
empty name and address and no error; when the first line holds no `|` it returns an error;
and a first line `name + "|" + address`, where neither part holds a `|` or a newline,
parses to exactly `(name, address)` with no error. -/
theorem runDeviceSelectMenu_parse :
    runDeviceSelectMenu [] = .returns ([], [], none) ∧
    (∀ line rest, pipe ∉ line →
      runDeviceSelectMenu (line :: rest) =
        .returns ([], [],
          some (.errorf "string %q doesnt contain delimiter %q" [line, str "|"]))) ∧
    (∀ name address rest, pipe ∉ name → newline ∉ name → pipe ∉ address → newline ∉ address →
      runDeviceSelectMenu ((name ++ [pipe] ++ address) :: rest) =
        .returns (name, address, none)) := by
  refine ⟨by simp [runDeviceSelectMenu], ?_, ?_⟩
  · intro line rest hline
    have hmem : pipe ∉ trimRight line newline :=
      fun hx => hline (mem_of_mem_trimRight line newline pipe hx)
    simp [runDeviceSelectMenu, split_of_not_mem _ _ hmem]
  · intro name address rest hn _ ha hna
    have htrim : trimRight (name ++ pipe :: address) newline = name ++ pipe :: address := by
      rcases List.eq_nil_or_concat address with rfl | ⟨a, c, rfl⟩
      · simpa using trimRight_concat name pipe newline (by decide)
      · have hc : c ≠ newline := by
          intro e
          apply hna
          simp [e]
        have := trimRight_concat (name ++ pipe :: a) c newline hc
        simpa using this
    simp [runDeviceSelectMenu, htrim, split_append_sep _ _ _ hn, split_of_not_mem _ _ ha]

/-- C3, witness: the line `Pixel Buds|AA:BB:CC:DD:EE:FF`, and the line `garbage`. -/
theorem runDeviceSelectMenu_parse_witness :
    (pipe ∉ str "Pixel Buds" ∧ newline ∉ str "Pixel Buds" ∧
      pipe ∉ str "AA:BB:CC:DD:EE:FF" ∧ newline ∉ str "AA:BB:CC:DD:EE:FF") ∧
    str "Pixel Buds" ++ [pipe] ++ str "AA:BB:CC:DD:EE:FF" = str "Pixel Buds|AA:BB:CC:DD:EE:FF" ∧
    runDeviceSelectMenu [str "Pixel Buds" ++ [pipe] ++ str "AA:BB:CC:DD:EE:FF"] =
      .returns (str "Pixel Buds", str "AA:BB:CC:DD:EE:FF", none) ∧
    (pipe ∉ str "garbage" ∧
      runDeviceSelectMenu [str "garbage"] =
        .returns ([], [],
          some (.errorf "string %q doesnt contain delimiter %q" [str "garbage", str "|"]))) :=
  ⟨by decide, by decide,
    runDeviceSelectMenu_parse.2.2 _ _ [] (by decide) (by decide) (by decide) (by decide),
    by decide, runDeviceSelectMenu_parse.2.1 _ [] (by decide)⟩

/-! ## Live feed -/

/-- C4: for every finite sequence of snapshots in which each snapshot holds the entries of
the one before, the loop body of `writeDevicesToStdin`, run over the snapshots in order
from an empty `added` map, writes each device name at most once in the whole run. -/
theorem writeDevicesToStdin_once (snapshots : List GoMap)
    (_h : growing snapshots = true) (name : GoString) :
    writesOf name (writeDevicesToStdin (snapshots.map some)).stdin ≤ 1 :=
  writesOf_le_one name _ (feedInv_writeDevicesToStdin _).1

/-- C4, witness: a second snapshot that adds one device to the first; both devices are
written, each once. -/
theorem writeDevicesToStdin_once_witness :
    growing
      [[(str "Pixel Buds", str "AA:BB:CC:DD:EE:FF")],
       [(str "Speaker", str "11:22:33:44:55:66"), (str "Pixel Buds", str "AA:BB:CC:DD:EE:FF")]]
      = true ∧
    (writeDevicesToStdin
      ([[(str "Pixel Buds", str "AA:BB:CC:DD:EE:FF")],
        [(str "Speaker", str "11:22:33:44:55:66"),
         (str "Pixel Buds", str "AA:BB:CC:DD:EE:FF")]].map some)).stdin =
      [{ name := str "Pixel Buds", device := str "AA:BB:CC:DD:EE:FF" },
       { name := str "Speaker", device := str "11:22:33:44:55:66" }] ∧
    writesOf (str "Pixel Buds")
      (writeDevicesToStdin
        ([[(str "Pixel Buds", str "AA:BB:CC:DD:EE:FF")],
          [(str "Speaker", str "11:22:33:44:55:66"),
           (str "Pixel Buds", str "AA:BB:CC:DD:EE:FF")]].map some)).stdin ≤ 1 :=
  ⟨by decide, by decide, writeDevicesToStdin_once _ (by decide) _⟩

/-! ## Toggle and connect -/

/-- C5: the action `toggle` chooses: with `isPowered` false (any `isConnected`) it runs
`connect(device)`; with `isPowered` true and `isConnected` false it runs `connect(device)`;
with both true it runs the one command `bluetoothctl power off`, returns its error, and
runs nothing of `connect`. -/
theorem toggle_action (env : Env) (w : World) (device : GoString) :
    (∀ isConnected : Bool,
      toggle env w isConnected false device = connect env w device isConnected) ∧
    toggle env w false true device = connect env w device false ∧
    toggle env w true true device =
      ((env.exec w.trace powerOffCmd).err, { w with trace := w.trace ++ [powerOffCmd] }) ∧
    powerOnCmd ≠ powerOffCmd ∧ connectCmd device ≠ powerOffCmd := by
  refine ⟨?_, ?_, ?_, by decide, ?_⟩
  · intro isConnected
    simp only [toggle, Bool.not_false, Bool.or_true, if_true]
    rcases hc : connect env w device isConnected with ⟨e, w1⟩
    cases e <;> rfl
  · simp only [toggle, Bool.not_false, Bool.true_or, if_true]
    rcases hc : connect env w device false with ⟨e, w1⟩
    cases e <;> rfl
  · simp only [toggle, runCmd]
    cases h : (env.exec w.trace powerOffCmd).err <;> simp [h]
  · intro h
    simp only [connectCmd, powerOffCmd, List.cons.injEq] at h
    exact absurd h.2.1 (by decide)

/-- C8, counterexample: power-on succeeds and the disconnect fails; `connect` returns the
failure of the disconnect, wrapped with its output, and the connect command is never run:
the commands run are power-on and disconnect only. -/
theorem connect_disconnect_counterexample :
    (envDisconnectFails.exec [] powerOnCmd).err = none ∧
    (envDisconnectFails.exec [powerOnCmd] disconnectCmd).err
      = some (.os (str "exit status 1")) ∧
    (connect envDisconnectFails emptyWorld (str "AA:BB:CC:DD:EE:FF") true).1
      = some (.withMessage (.os (str "exit status 1")) []) ∧
    (connect envDisconnectFails emptyWorld (str "AA:BB:CC:DD:EE:FF") true).2.trace
      = [powerOnCmd, disconnectCmd] ∧
    connectCmd (str "AA:BB:CC:DD:EE:FF") ∉
      (connect envDisconnectFails emptyWorld (str "AA:BB:CC:DD:EE:FF") true).2.trace := by
  decide

/-- C8, amended: in `connect` with `isConnected` true, when power-on succeeds the disconnect
is run before connecting and is not best-effort: when it fails, `connect` returns that
failure wrapped with the output of the command and does not run the connect command; when
it succeeds, `connect` runs the connect command for the target address and returns its
outcome (nil when it succeeds, else its error wrapped with its output). -/
theorem connect_disconnect_first (env : Env) (w : World) (device : GoString)
    (hon : (env.exec w.trace powerOnCmd).err = none) :
    (∀ err, (env.exec (w.trace ++ [powerOnCmd]) disconnectCmd).err = some err →
      connect env w device true =
        (some (.withMessage err (env.exec (w.trace ++ [powerOnCmd]) disconnectCmd).stdout),
          { w with trace := w.trace ++ [powerOnCmd, disconnectCmd] })) ∧
    ((env.exec (w.trace ++ [powerOnCmd]) disconnectCmd).err = none →
      connect env w device true =
        (((env.exec (w.trace ++ [powerOnCmd, disconnectCmd]) (connectCmd device)).err).map
            (fun err => GoError.withMessage err
              (env.exec (w.trace ++ [powerOnCmd, disconnectCmd]) (connectCmd device)).stdout),
          { w with trace := w.trace ++ [powerOnCmd, disconnectCmd, connectCmd device] })) := by
  constructor
  · intro err hdis
    simp [connect, runCmd, hon, hdis]
  · intro hdis
    cases hcon : (env.exec (w.trace ++ [powerOnCmd, disconnectCmd]) (connectCmd device)).err
      <;> simp [connect, runCmd, hon, hdis, hcon]

/-- C8, witness: the disconnect fails in `envDisconnectFails` and succeeds in `envOk`. -/
theorem connect_disconnect_first_witness :
    (envDisconnectFails.exec emptyWorld.trace powerOnCmd).err = none ∧
    (envDisconnectFails.exec (emptyWorld.trace ++ [powerOnCmd]) disconnectCmd).err
      = some (.os (str "exit status 1")) ∧
    connect envDisconnectFails emptyWorld (str "AA:BB:CC:DD:EE:FF") true =
      (some (.withMessage (.os (str "exit status 1"))
          (envDisconnectFails.exec (emptyWorld.trace ++ [powerOnCmd]) disconnectCmd).stdout),
        { emptyWorld with trace := emptyWorld.trace ++ [powerOnCmd, disconnectCmd] }) :=
  ⟨by decide, by decide,
    (connect_disconnect_first envDisconnectFails emptyWorld (str "AA:BB:CC:DD:EE:FF")
      (by decide)).1 _ (by decide)⟩

/-! ## The status command -/

/-- C9, counterexample: the output of `show` contains `Powered: yes` and the output of
`info` contains `Connected: yes`, yet the command `status` prints nothing and returns an
error: (1) when the `show` command itself fails, `isPowered` returns its error; (2) when
`yad` is not installed, `run` returns before any command is run. -/
theorem run_status_counterexample :
    (contains (envShowFails.exec [] showCmd).combined isPoweredIndicator = true ∧
      contains (envShowFails.exec [showCmd] infoCmd).combined isConnectedIndicator = true ∧
      (run envShowFails (fun w _ _ => (none, w)) emptyWorld (str "c") (str "d") (str "o") []
        (str "/tmp/.btdev") (str "status")).1 = some (.os (str "signal: killed")) ∧
      (run envShowFails (fun w _ _ => (none, w)) emptyWorld (str "c") (str "d") (str "o") []
        (str "/tmp/.btdev") (str "status")).2.stdout = []) ∧
    (contains (envNoYad.exec [] showCmd).combined isPoweredIndicator = true ∧
      contains (envNoYad.exec [showCmd] infoCmd).combined isConnectedIndicator = true ∧
      (run envNoYad (fun w _ _ => (none, w)) emptyWorld (str "c") (str "d") (str "o") []
        (str "/tmp/.btdev") (str "status")).1
        = some (.os (str "executable file not found in $PATH")) ∧
      (run envNoYad (fun w _ _ => (none, w)) emptyWorld (str "c") (str "d") (str "o") []
        (str "/tmp/.btdev") (str "status")).2.stdout = []) := by
  decide

/-- C9, amended: for all display texts `c`, `d` and `o`, when both tools are installed, the
`show` command succeeds with an output containing `Powered: yes` and the output of `info`
contains `Connected: yes`, the command `status` returns no error and prints exactly one
line, the connected text `c`, and neither `d` nor `o`. -/
theorem run_status_connected (env : Env)
    (pick : World → GoString → Bool → Option GoError × World) (w : World)
    (c d o device storePath : GoString)
    (hctl : env.lookPath (str "bluetoothctl") = none)
    (hyad : env.lookPath (str "yad") = none)
    (hrun : (env.exec w.trace showCmd).err = none)
    (hshow : contains (env.exec w.trace showCmd).combined isPoweredIndicator = true)
    (hinfo : contains (env.exec (w.trace ++ [showCmd]) infoCmd).combined isConnectedIndicator
      = true) :
    run env pick w c d o device storePath (str "status") =
      (none,
        { trace := w.trace ++ [showCmd, infoCmd]
          stdout := w.stdout ++ c ++ [newline]
          files := w.files }) := by
  have h1 : ¬ str "status" = str "toggle" := by decide
  have h2 : ¬ str "status" = str "pick" := by decide
  simp [run, hctl, hyad, isPowered, isConnected, runCmd, hrun, hshow, hinfo, h1, h2,
    printStatus, println]

/-- C9, witness: the texts `c`, `d` and `o` in the environment `envOk`; the output is the
line `c`. -/
theorem run_status_connected_witness :
    (envOk.lookPath (str "bluetoothctl") = none ∧ envOk.lookPath (str "yad") = none ∧
      (envOk.exec emptyWorld.trace showCmd).err = none ∧
      contains (envOk.exec emptyWorld.trace showCmd).combined isPoweredIndicator = true ∧
      contains (envOk.exec (emptyWorld.trace ++ [showCmd]) infoCmd).combined
        isConnectedIndicator = true) ∧
    (run envOk (fun w _ _ => (none, w)) emptyWorld (str "c") (str "d") (str "o") [] (str "/tmp/.btdev")
      (str "status")).2.stdout = str "c\n" ∧
    run envOk (fun w _ _ => (none, w)) emptyWorld (str "c") (str "d") (str "o") [] (str "/tmp/.btdev")
      (str "status") =
      (none,
        { trace := emptyWorld.trace ++ [showCmd, infoCmd]
          stdout := emptyWorld.stdout ++ str "c" ++ [newline]
          files := emptyWorld.files }) :=
  ⟨by decide, by decide,
    run_status_connected envOk _ emptyWorld (str "c") (str "d") (str "o") [] (str "/tmp/.btdev")
      (by decide) (by decide) (by decide) (by decide) (by decide)⟩

/-! ## `BluetoothCtl.Devices` -/

/-- C10: when the `devices` command succeeds with an output that is empty or ends with a
newline, `BluetoothCtl.Devices` returns an error and a nil map, the last segment of the
output being an empty line, which splits into a single piece; this is so in particular for
an output made of well-formed device lines, each followed by a newline. -/
theorem Devices_trailing_newline (env : Env) (w : World)
    (hrun : (env.exec w.trace devicesCmd).err = none) :
    (((env.exec w.trace devicesCmd).combined = [] ∨
        ∃ s, (env.exec w.trace devicesCmd).combined = s ++ [newline]) →
      (BluetoothCtl.Devices env w).1 =
        .returns (none, some (.errorf "line does not contain %q" [str " "]))) ∧
    (∀ lines : List GoString,
      (∀ line ∈ lines, 3 ≤ (split line space).length ∧ newline ∉ line) →
      (env.exec w.trace devicesCmd).combined = (lines.map (fun line => line ++ [newline])).flatten →
      (BluetoothCtl.Devices env w).1 =
        .returns (none, some (.errorf "line does not contain %q" [str " "]))) := by
  have key : ((env.exec w.trace devicesCmd).combined = [] ∨
        ∃ s, (env.exec w.trace devicesCmd).combined = s ++ [newline]) →
      (BluetoothCtl.Devices env w).1 =
        .returns (none, some (.errorf "line does not contain %q" [str " "])) := by
    intro hout
    simp only [BluetoothCtl.Devices, runCmd, hrun]
    apply parseDeviceLines_error
    exact ⟨[], nil_mem_split _ newline hout, by decide⟩
  refine ⟨key, ?_⟩
  intro lines _ hlines
  apply key
  rw [hlines]
  rcases List.eq_nil_or_concat lines with rfl | ⟨ls, l, rfl⟩
  · left; rfl
  · right
    refine ⟨(ls.map (fun line => line ++ [newline])).flatten ++ l, ?_⟩
    simp [List.concat_eq_append]

/-- C10, witness: in `envOk` the listing is two well-formed lines, each ending in a newline,
and `BluetoothCtl.Devices` returns the error. -/
theorem Devices_trailing_newline_witness :
    (envOk.exec emptyWorld.trace devicesCmd).err = none ∧
    (envOk.exec emptyWorld.trace devicesCmd).combined =
      str "Device AA:BB:CC:DD:EE:FF Pixel Buds\nDevice 11:22:33:44:55:66 Speaker" ++ [newline] ∧
    (BluetoothCtl.Devices envOk emptyWorld).1 =
      .returns (none, some (.errorf "line does not contain %q" [str " "])) :=
  ⟨by decide, by decide,
    (Devices_trailing_newline envOk emptyWorld (by decide)).1
      (Or.inr
        ⟨str "Device AA:BB:CC:DD:EE:FF Pixel Buds\nDevice 11:22:33:44:55:66 Speaker",
          by decide⟩)⟩

/-! ## The persisted last device -/

/-- C6, counterexample: with every file operation succeeding, (1) over a store file whose
earlier content is longer than 17 bytes, `setLastDevice` succeeds and `getLastDevice` then
returns the new device followed by the tail of the earlier content; (2) a 17-byte device
ending in a newline is read back without that newline. -/
theorem setLastDevice_roundTrip_counterexample :
    ((str "11:22:33:44:55:66").length = 17 ∧
      (setLastDevice envOk
        (worldWithFile (str "/tmp/.btdev") (str "AA:BB:CC:DD:EE:FF Pixel Buds"))
        (str "/tmp/.btdev") (str "11:22:33:44:55:66")).1 = none ∧
      (getLastDevice envOk
        (setLastDevice envOk
          (worldWithFile (str "/tmp/.btdev") (str "AA:BB:CC:DD:EE:FF Pixel Buds"))
          (str "/tmp/.btdev") (str "11:22:33:44:55:66")).2
        (str "/tmp/.btdev")).1 = (str "11:22:33:44:55:66 Pixel Buds", none) ∧
      str "11:22:33:44:55:66 Pixel Buds" ≠ str "11:22:33:44:55:66") ∧
    ((str "AA:BB:CC:DD:EE:F\n").length = 17 ∧
      (setLastDevice envOk emptyWorld (str "/tmp/.btdev") (str "AA:BB:CC:DD:EE:F\n")).1 = none ∧
      (getLastDevice envOk
        (setLastDevice envOk emptyWorld (str "/tmp/.btdev") (str "AA:BB:CC:DD:EE:F\n")).2
        (str "/tmp/.btdev")).1 = (str "AA:BB:CC:DD:EE:F", none) ∧
      str "AA:BB:CC:DD:EE:F" ≠ str "AA:BB:CC:DD:EE:F\n") := by
  decide

/-- C6, amended: with file operations that do not fail, for every 17-byte device string
that does not end in a newline and every prior state of the store file that is absent,
empty or holds at most 17 bytes, `setLastDevice` succeeds, the content of the file is then
exactly the device string (overwritten, not appended to), and a subsequent `getLastDevice`
on the same path returns exactly that string with no error. -/
theorem setLastDevice_getLastDevice (env : Env) (w : World) (filepath device : GoString)
    (hopen : env.openErr filepath = none) (hread : env.readErr filepath = none)
    (hwrite : env.writeErr filepath = none)
    (hlen : device.length = 17) (hend : device.getLast? ≠ some newline)
    (hold : ((w.files filepath).getD []).length ≤ 17) :
    (setLastDevice env w filepath device).1 = none ∧
    (setLastDevice env w filepath device).2.files filepath = some device ∧
    (getLastDevice env (setLastDevice env w filepath device).2 filepath).1 = (device, none) := by
  have hdrop : List.drop device.length ((w.files filepath).getD []) = [] := by
    rw [List.drop_eq_nil_iff]
    omega
  have hset : setLastDevice env w filepath device =
      (none, { w with files := Function.update w.files filepath (some device) }) := by
    simp [setLastDevice, hlen, hopen, hwrite]
    rw [hlen] at hdrop
    rw [hdrop]
    simp
  rw [hset]
  refine ⟨rfl, by simp, ?_⟩
  simp [getLastDevice, hopen, hread, trimRight_of_getLast device newline hend]

/-- C6, witness: the device `AA:BB:CC:DD:EE:FF` written over a file that held another
device. -/
theorem setLastDevice_getLastDevice_witness :
    (envOk.openErr (str "/tmp/.btdev") = none ∧ envOk.readErr (str "/tmp/.btdev") = none ∧
      envOk.writeErr (str "/tmp/.btdev") = none ∧
      (str "AA:BB:CC:DD:EE:FF").length = 17 ∧
      (str "AA:BB:CC:DD:EE:FF").getLast? ≠ some newline ∧
      (((worldWithFile (str "/tmp/.btdev") (str "11:22:33:44:55:66")).files
        (str "/tmp/.btdev")).getD []).length ≤ 17) ∧
    (setLastDevice envOk (worldWithFile (str "/tmp/.btdev") (str "11:22:33:44:55:66"))
      (str "/tmp/.btdev") (str "AA:BB:CC:DD:EE:FF")).1 = none ∧
    (setLastDevice envOk (worldWithFile (str "/tmp/.btdev") (str "11:22:33:44:55:66"))
      (str "/tmp/.btdev") (str "AA:BB:CC:DD:EE:FF")).2.files (str "/tmp/.btdev")
      = some (str "AA:BB:CC:DD:EE:FF") ∧
    (getLastDevice envOk
      (setLastDevice envOk (worldWithFile (str "/tmp/.btdev") (str "11:22:33:44:55:66"))
        (str "/tmp/.btdev") (str "AA:BB:CC:DD:EE:FF")).2
      (str "/tmp/.btdev")).1 = (str "AA:BB:CC:DD:EE:FF", none) :=
  ⟨by decide,
    setLastDevice_getLastDevice envOk (worldWithFile (str "/tmp/.btdev") (str "11:22:33:44:55:66"))
      (str "/tmp/.btdev") (str "AA:BB:CC:DD:EE:FF")
      (by decide) (by decide) (by decide) (by decide) (by decide) (by decide)⟩

/-- C7: for every device string whose length is not exactly 17, `setLastDevice` returns an
error and leaves the whole state as it was: the content of the store file is what it was
before the call, and an absent file is not created. -/
theorem setLastDevice_rejects (env : Env) (w : World) (filepath device : GoString)
    (h : device.length ≠ 17) :
    setLastDevice env w filepath device =
      (some (.errorf "wrong device format %q" [device]), w) := by
  simp [setLastDevice, h]

/-- C7, witness: the device `short`, with no store file; there is still no file after the
call. -/
theorem setLastDevice_rejects_witness :
    (str "short").length ≠ 17 ∧
    (setLastDevice envOk emptyWorld (str "/tmp/.btdev") (str "short")).2.files
      (str "/tmp/.btdev") = none ∧
    setLastDevice envOk emptyWorld (str "/tmp/.btdev") (str "short") =
      (some (.errorf "wrong device format %q" [str "short"]), emptyWorld) :=
  ⟨by decide, by decide, setLastDevice_rejects envOk emptyWorld _ _ (by decide)⟩

end Btctl
